import Mathlib

/-!
Verification development for the fan-out GEO content pipeline
(`fanout_ai.py` plus its front-end adapters).

The remote language-model and search calls are modelled as oracles: an
`Env` value fixes, for one request, the outcome of each remote call
(success with a parsed value, or failure standing for a raised
exception).  Everything the orchestrator does around those calls is
translated directly from the source.
-/

namespace FanoutAI

/-! ### Python string helpers (the subset the code relies on) -/

/-- The whitespace characters recognised by Python's `str.strip()` /
`str.split()` on ASCII text. -/
def isPySpace (c : Char) : Bool :=
  c = ' ' || c = '\t' || c = '\n' || c = '\r' || c = Char.ofNat 11 || c = Char.ofNat 12

/-- Python `s.strip()`: drop leading and trailing whitespace. -/
def pyStrip (s : String) : String :=
  String.mk (((s.toList.dropWhile isPySpace).reverse.dropWhile isPySpace).reverse)

/-- Splitting loop: walk the characters, accumulating the current word
reversed; whitespace closes the current word (if any). -/
def splitWordsAux : List Char → List Char → List String
  | [], acc => if acc.isEmpty then [] else [String.mk acc.reverse]
  | c :: rest, acc =>
      if isPySpace c then
        if acc.isEmpty then splitWordsAux rest []
        else String.mk acc.reverse :: splitWordsAux rest []
      else splitWordsAux rest (c :: acc)

/-- Python `s.split()` with no argument: whitespace-delimited tokens,
runs of whitespace collapsed, no empty tokens. -/
def pySplitWords (s : String) : List String :=
  splitWordsAux s.toList []

/-- Whitespace-delimited word count of a string. -/
def wordCount (s : String) : Nat :=
  (pySplitWords s).length

/-- Python `s.lower()` on ASCII text. -/
def pyLower (s : String) : String :=
  String.mk (s.toList.map Char.toLower)

/-! ### Data models (`fanout_ai.py`, section 1) -/

/-- The `Literal["Definition", "Comparison", "Limitations", "How-to"]`
type of `AnswerBlock.intent_category`. -/
inductive IntentCategory where
  | definition
  | comparison
  | limitations
  | howTo
  deriving DecidableEq, Repr

/-- Pydantic's validation of the `Literal` annotation: a raw string is
accepted exactly when it is one of the four enumerated spellings;
anything else fails model validation (it is never coerced). -/
def parseIntentCategory (s : String) : Option IntentCategory :=
  if s = "Definition" then some IntentCategory.definition
  else if s = "Comparison" then some IntentCategory.comparison
  else if s = "Limitations" then some IntentCategory.limitations
  else if s = "How-to" then some IntentCategory.howTo
  else none

/-- Model of `AnswerBlock` (fanout_ai.py lines 28-36): the final content block. -/
structure AnswerBlock where
  heading : String
  content : String
  intent_category : IntentCategory
  source_quality_score : Int
  relevance_score : Int
  deriving DecidableEq, Repr

/-- A raw (pre-validation) candidate for `AnswerBlock`, with the
`intent_category` field still an unchecked string. -/
structure RawAnswerBlock where
  heading : String
  content : String
  intent_category : String
  source_quality_score : Int
  relevance_score : Int
  deriving DecidableEq, Repr

/-- Pydantic model validation of a raw `AnswerBlock` candidate: succeeds
iff the `intent_category` string is one of the four `Literal` values. -/
def parseAnswerBlock (raw : RawAnswerBlock) : Option AnswerBlock :=
  match parseIntentCategory raw.intent_category with
  | some cat =>
      some ⟨raw.heading, raw.content, cat, raw.source_quality_score, raw.relevance_score⟩
  | none => none

/-- Model of `FanOutResult` (fanout_ai.py lines 38-42): the final result object. -/
structure FanOutResult where
  analysis_summary : String
  blocks : List AnswerBlock
  deriving DecidableEq, Repr

/-- Model of `SubQueryPlan` (fanout_ai.py lines 21-25): the strategic plan. -/
structure SubQueryPlan where
  main_intent : String
  sub_queries : List String
  deriving DecidableEq, Repr

/-! ### The oracle environment

Each field fixes the outcome, for the current request, of one remote
call made by the code.  `Except.error e` stands for the call raising an
exception whose `str()` is `e`; `Except.ok v` stands for it returning
the parsed value `v`. -/

/-- Outcomes of the remote calls for one request. -/
structure Env where
  /-- Outcome of the `step_1_plan_queries` LLM call. -/
  plan : Except String SubQueryPlan
  /-- Outcome of the per-query LLM call inside `_search_mock_smart`. -/
  fetch : String → Except String String
  /-- Outcome of `import requests` inside `_search_serper` (outside the
  `try` block, so a failure propagates out of the search stage). -/
  serperImportOutcome : Except String Unit
  /-- Outcome of the HTTP request inside the `try` of `_search_serper`. -/
  serperRequest : String → Except String String
  /-- Whether `SERPER_API_KEY` is set (truthiness of `self.api_key`). -/
  hasSerperKey : Bool
  /-- Outcome of the `step_3_synthesize` LLM call. -/
  synthesize : SubQueryPlan → List (String × String) → Except String FanOutResult
  /-- Outcome of the LLM call inside `generate_geo_content`. -/
  genGeo : Except String FanOutResult

/-- The dict returned by `run_fan_out_workflow` / `run_tool`: either
`{"result": ...}` or `{"error": ...}` and nothing else. -/
inductive ToolOutput where
  | result : FanOutResult → ToolOutput
  | error : String → ToolOutput
  deriving DecidableEq, Repr

/-! ### The search tool (fanout_ai.py, section 3) -/

inductive Provider where
  | mock
  | serper
  deriving DecidableEq, Repr

/-- Model of `SearchTool.__init__`: stores the provider and whether the Serper
API key environment variable is set. -/
structure SearchTool where
  provider : Provider
  hasApiKey : Bool
  deriving DecidableEq, Repr

/-- Model of `_search_mock_smart`: the LLM call is wrapped in `try/except`, so a
failure degrades to the fixed placeholder string and never raises. -/
def search_mock_smart (env : Env) (query : String) : String :=
  match env.fetch query with
  | Except.ok s => s
  | Except.error _ => "Error generating mock content."

/-- Model of `_search_serper`: the `import requests` line sits outside the `try`
block (an `ImportError` propagates), while a failing HTTP request is
caught and degrades to the fixed placeholder string. -/
def search_serper (env : Env) (query : String) : Except String String :=
  match env.serperImportOutcome with
  | Except.error e => Except.error e
  | Except.ok _ =>
      match env.serperRequest query with
      | Except.ok snippets => Except.ok snippets
      | Except.error _ => Except.ok "No results found due to error."

/-- One iteration of the `search_multiple` loop body: the branch
`if self.provider == "serper" and self.api_key`. -/
def searchOne (st : SearchTool) (env : Env) (query : String) : Except String String :=
  if st.provider = Provider.serper ∧ st.hasApiKey = true then search_serper env query
  else Except.ok (search_mock_smart env query)

/-- Insertion into a Python dict (`results[q] = v`): overwrite in place
if the key exists, else append. -/
def dictInsert : List (String × String) → String → String → List (String × String)
  | [], k, v => [(k, v)]
  | (k', v') :: rest, k, v =>
      if k' = k then (k, v) :: rest else (k', v') :: dictInsert rest k v

/-- Python dict lookup on the association-list model. -/
def dictLookup : List (String × String) → String → Option String
  | [], _ => none
  | (k', v) :: rest, k => if k' = k then some v else dictLookup rest k

/-- The keys of the association-list dict model. -/
def dictKeys (m : List (String × String)) : List String :=
  m.map Prod.fst

/-- The `for q in queries` loop of `search_multiple`: an exception in an
iteration propagates and abandons the partial dict. -/
def searchLoop (st : SearchTool) (env : Env) :
    List String → List (String × String) → Except String (List (String × String))
  | [], results => Except.ok results
  | q :: rest, results =>
      match searchOne st env q with
      | Except.error e => Except.error e
      | Except.ok v => searchLoop st env rest (dictInsert results q v)

/-- Model of `SearchTool.search_multiple` (fanout_ai.py lines 92-99). -/
def SearchTool.search_multiple (st : SearchTool) (env : Env) (queries : List String) :
    Except String (List (String × String)) :=
  searchLoop st env queries []

/-- The pure value of the mock-mode search loop (used to describe the
output of `search_multiple` in mock mode, where no iteration can raise). -/
def mockSearch (env : Env) : List String → List (String × String) → List (String × String)
  | [], results => results
  | q :: rest, results => mockSearch env rest (dictInsert results q (search_mock_smart env q))

/-! ### Orchestrator and public APIs (fanout_ai.py, section 5) -/

/-- Model of `step_1_plan_queries`: a single LLM call with no internal handler;
its outcome is the `plan` oracle. -/
def step_1_plan_queries (env : Env) (_keyword : String) : Except String SubQueryPlan :=
  env.plan

/-- Model of `step_3_synthesize`: a single LLM call with no internal handler. -/
def step_3_synthesize (env : Env) (_keyword : String) (plan : SubQueryPlan)
    (search_context : List (String × String)) : Except String FanOutResult :=
  env.synthesize plan search_context

/-- The `SearchTool` built by `run_fan_out_workflow`:
`provider = "serper" if use_real_search else "mock"`. -/
def searchToolFor (env : Env) (use_real_search : Bool) : SearchTool :=
  SearchTool.mk (if use_real_search then Provider.serper else Provider.mock) env.hasSerperKey

/-- Model of `run_fan_out_workflow` (fanout_ai.py lines 219-242): each stage is
wrapped in `try/except Exception`, and a failure returns the
stage-tagged error dict immediately. -/
def run_fan_out_workflow (env : Env) (keyword : String) (use_real_search : Bool) : ToolOutput :=
  match step_1_plan_queries env keyword with
  | Except.error e => ToolOutput.error ("Planning failed: " ++ e)
  | Except.ok plan =>
      match (searchToolFor env use_real_search).search_multiple env plan.sub_queries with
      | Except.error e => ToolOutput.error ("Search failed: " ++ e)
      | Except.ok search_results =>
          match step_3_synthesize env keyword plan search_results with
          | Except.error e => ToolOutput.error ("Synthesis failed: " ++ e)
          | Except.ok final_result => ToolOutput.result final_result

/-- Model of `generate_geo_content` (fanout_ai.py lines 245-264): the whole LLM
call is inside `try/except`, returning `None` on any failure. -/
def generate_geo_content (env : Env) (_content_text _keyword : String) : Option FanOutResult :=
  match env.genGeo with
  | Except.ok r => some r
  | Except.error _ => none

/-- Model of `run_tool` (fanout_ai.py lines 269-285): the Flask adapter.
`if not keyword` on a string is the empty-string test; a truthy
`content_text.strip()` selects the direct path, and a `None` from the
direct generation falls through to `run_fan_out_workflow`. -/
def run_tool (env : Env) (content_text keyword : String) : ToolOutput :=
  if keyword = "" then ToolOutput.error "Keyword is required."
  else if pyStrip content_text ≠ "" then
    match generate_geo_content env content_text keyword with
    | some geo_result => ToolOutput.result geo_result
    | none => run_fan_out_workflow env keyword false
  else run_fan_out_workflow env keyword false

/-! ### Validation Engine

Modelled from the spec: the repository's Validation Engine variant (the
"GEO rules" file defining `validate_block` / `validate_result`) is not
among the files under src/ — src/app/main.py imports symbols from a
fanout_ai variant that is absent, and src/fanout_ai.py carries no
content validators.  The rules, their order, and the candidate shape
below follow spec §3 and §4.1 verbatim. -/

/-- Modelled from the spec: punctuation stripped around the first word
before the pronoun check — comma, period, question mark, exclamation
mark, colon, semicolon, quote marks, parentheses (§4.1). -/
def isStripPunct (c : Char) : Bool :=
  c = ',' || c = '.' || c = '?' || c = '!' || c = ':' || c = ';' ||
  c = '\"' || c = Char.ofNat 39 || c = '(' || c = ')'

/-- Strip the fixed punctuation set from both ends of a word. -/
def stripPunct (w : String) : String :=
  String.mk (((w.toList.dropWhile isStripPunct).reverse.dropWhile isStripPunct).reverse)

/-- The fixed pronoun set of spec §3. -/
def pronounSet : List String :=
  ["it", "this", "these", "those", "they", "he", "she"]

/-- Whether content's first whitespace-delimited token, after stripping
surrounding punctuation, is one of the fixed pronouns (case-insensitive). -/
def firstWordIsPronoun (content : String) : Bool :=
  match pySplitWords content with
  | [] => false
  | w :: _ => pronounSet.contains (pyLower (stripPunct w))

/-- Whether `pat` is an initial segment of `s` (on character lists). -/
def startsWithChars : List Char → List Char → Bool
  | [], _ => true
  | _ :: _, [] => false
  | a :: pa, b :: pb => a = b && startsWithChars pa pb

/-- Whether `pat` occurs as a contiguous run inside `s`. -/
def containsChars (pat : List Char) : List Char → Bool
  | [] => startsWithChars pat []
  | c :: rest => startsWithChars pat (c :: rest) || containsChars pat rest

/-- The causal connectors of spec §3. -/
def causalConnectors : List String :=
  ["because", "therefore", "which means"]

/-- Case-insensitive substring test for at least one causal connector. -/
def hasCausalConnector (content : String) : Bool :=
  causalConnectors.any (fun p => containsChars p.toList (pyLower content).toList)

/-- Reason string of the word-count rule. -/
def wordCountReason : String := "content word count must be between 40 and 80 words"

/-- Reason string of the pronoun-start rule. -/
def pronounReason : String := "content must not start with a pronoun"

/-- Reason string of the single-paragraph rule. -/
def paragraphReason : String := "content must be a single paragraph without line breaks"

/-- Reason string of the causal-connector rule. -/
def causalReason : String := "content must contain a causal connector"

/-- Reason string of the heading rule. -/
def headingReason : String := "heading must be non-blank"

/-- Reason string of the score-range rule. -/
def scoreReason : String := "scores must be integers between 0 and 100"

/-- Reason string of the category-membership rule. -/
def categoryReason : String := "intent_category must be one of the enumerated values"

/-- Reason string of the block-count rule. -/
def blockCountReason : String := "result must contain between 3 and 5 blocks"

/-- Reason string of the duplicate-query rule. -/
def duplicateQueryReason : String := "target_query values must be unique across blocks"

/-- Modelled from the spec: a raw candidate answer block as validated by
the Validation Engine — spec §3's `AnswerBlock` attributes, with
`source_quality_score` optional (§3). -/
structure CandidateBlock where
  intent_category : String
  target_query : String
  heading : String
  content : String
  relevance_score : Int
  source_quality_score : Option Int
  deriving DecidableEq, Repr

/-- Integer score in [0, 100] (spec §3). -/
def scoreInRange (n : Int) : Bool :=
  0 ≤ n && n ≤ 100

/-- Modelled from the spec: `validate_block` (spec §4.1) — runs every
§3 block rule, failing closed on the first violation, in the spec's
order: word count, pronoun-start, single-paragraph, causal-connector,
heading, score range, category membership. -/
def validate_block (b : CandidateBlock) : Except String Unit :=
  if wordCount b.content < 40 ∨ 80 < wordCount b.content then Except.error wordCountReason
  else if firstWordIsPronoun b.content then Except.error pronounReason
  else if b.content.toList.any (fun c => c = '\n' || c = '\r') then Except.error paragraphReason
  else if !hasCausalConnector b.content then Except.error causalReason
  else if pyStrip b.heading = "" then Except.error headingReason
  else if !(scoreInRange b.relevance_score &&
      (match b.source_quality_score with
       | some s => scoreInRange s
       | none => true)) then Except.error scoreReason
  else if (parseIntentCategory b.intent_category).isNone then Except.error categoryReason
  else Except.ok ()

/-- Modelled from the spec: a raw candidate result set (spec §3's
`FanOutResult` attributes). -/
structure CandidateResult where
  analysis_summary : String
  blocks : List CandidateBlock
  deriving DecidableEq, Repr

/-- Whether the list holds two equal elements. -/
def hasDuplicate : List String → Bool
  | [] => false
  | x :: xs => xs.any (fun y => y = x) || hasDuplicate xs

/-- The lower-cased `target_query` values of a block sequence. -/
def loweredQueries (blocks : List CandidateBlock) : List String :=
  blocks.map (fun b => pyLower b.target_query)

/-- Validate each block of the sequence, failing on the first bad one. -/
def validateBlocks : List CandidateBlock → Except String Unit
  | [] => Except.ok ()
  | b :: rest =>
      match validate_block b with
      | Except.error e => Except.error e
      | Except.ok _ => validateBlocks rest

/-- Modelled from the spec: `validate_result` (spec §4.1) — block count
in [3, 5], pairwise-unique lower-cased `target_query` values (a
cross-block check needing the full sequence), then each block. -/
def validate_result (r : CandidateResult) : Except String Unit :=
  if r.blocks.length < 3 ∨ 5 < r.blocks.length then Except.error blockCountReason
  else if hasDuplicate (loweredQueries r.blocks) then Except.error duplicateQueryReason
  else validateBlocks r.blocks

/-! ### Concrete fixtures used by witnesses and counterexamples -/

/-- A 40-word content passing every block rule: starts with a proper
noun and contains a causal connector. -/
def contentProperNoun40 : String :=
  "Jotform " ++ String.intercalate " " (List.replicate 39 "because")

/-- A 40-word content starting with the pronoun "It". -/
def contentPronoun40 : String :=
  "It " ++ String.intercalate " " (List.replicate 39 "because")

/-- A block passing every rule, parameterized by its target query. -/
def sampleBlock (tq : String) : CandidateBlock :=
  ⟨"Definition", tq, "Overview", contentProperNoun40, 50, some 50⟩

/-- A per-query fetch oracle that always succeeds. -/
def fetchOkFn : String → Except String String :=
  fun q => Except.ok ("snippet for " ++ q)

/-- A fetch oracle failing on exactly one query. -/
def fetchMixed : String → Except String String :=
  fun q => if q = "bad query" then Except.error "timeout" else Except.ok ("snippet for " ++ q)

/-- A concrete plan value. -/
def planOkVal : SubQueryPlan :=
  ⟨"Commercial Investigation", ["q one", "q two", "q three"]⟩

/-- A concrete result value. -/
def resultOkVal : FanOutResult :=
  ⟨"summary", [⟨"Overview", contentProperNoun40, IntentCategory.definition, 50, 50⟩]⟩

/-- Environment where the planning LLM call raises and the direct
generation call also raises. -/
def envPlanFail : Env :=
  ⟨Except.error "plan boom", fetchOkFn, Except.ok (), fetchOkFn, false,
   fun _ _ => Except.error "synth boom", Except.error "gen boom"⟩

/-- Environment where planning succeeds but, in real-search mode, the
`import requests` inside `_search_serper` raises. -/
def envSearchFail : Env :=
  ⟨Except.ok planOkVal, fetchOkFn, Except.error "No module named requests", fetchOkFn, true,
   fun _ _ => Except.error "synth boom", Except.error "gen boom"⟩

/-- Environment where planning and search succeed but synthesis raises. -/
def envSynthFail : Env :=
  ⟨Except.ok planOkVal, fetchOkFn, Except.ok (), fetchOkFn, false,
   fun _ _ => Except.error "synth boom", Except.error "gen boom"⟩

/-- Environment where every remote call succeeds. -/
def envAllOk : Env :=
  ⟨Except.ok planOkVal, fetchOkFn, Except.ok (), fetchOkFn, false,
   fun _ _ => Except.ok resultOkVal, Except.ok resultOkVal⟩

/-- Environment with one failing per-query fetch. -/
def envMixed : Env :=
  ⟨Except.ok planOkVal, fetchMixed, Except.ok (), fetchMixed, false,
   fun _ _ => Except.ok resultOkVal, Except.error "gen boom"⟩

/-! ### Helper lemmas -/

theorem dictLookup_dictInsert_self (m : List (String × String)) (k v : String) :
    dictLookup (dictInsert m k v) k = some v := by
  induction m with
  | nil => simp [dictInsert, dictLookup]
  | cons kv rest ih =>
    obtain ⟨a, b⟩ := kv
    by_cases h : a = k
    · simp [dictInsert, h, dictLookup]
    · simp [dictInsert, h, dictLookup, ih]

theorem dictLookup_dictInsert_ne (m : List (String × String)) (k k' v : String)
    (h : k' ≠ k) : dictLookup (dictInsert m k' v) k = dictLookup m k := by
  induction m with
  | nil => simp [dictInsert, dictLookup, h]
  | cons kv rest ih =>
    obtain ⟨a, b⟩ := kv
    by_cases ha : a = k'
    · subst ha
      simp [dictInsert, dictLookup, h]
    · by_cases hak : a = k
      · subst hak
        simp [dictInsert, dictLookup, ha]
      · simp [dictInsert, ha, dictLookup, hak, ih]

theorem mem_dictKeys_dictInsert (m : List (String × String)) (k v a : String) :
    a ∈ dictKeys (dictInsert m k v) ↔ a ∈ dictKeys m ∨ a = k := by
  induction m with
  | nil => simp [dictInsert, dictKeys]
  | cons kv rest ih =>
    obtain ⟨a', b'⟩ := kv
    by_cases h : a' = k
    · subst h
      simp [dictInsert, dictKeys]
      tauto
    · simp only [dictInsert, if_neg h, dictKeys, List.map_cons, List.mem_cons] at ih ⊢
      rw [ih]
      tauto

theorem dictKeys_nodup_dictInsert (m : List (String × String)) (k v : String)
    (h : (dictKeys m).Nodup) : (dictKeys (dictInsert m k v)).Nodup := by
  induction m with
  | nil => simp [dictInsert, dictKeys]
  | cons kv rest ih =>
    obtain ⟨a, b⟩ := kv
    simp only [dictKeys, List.map_cons, List.nodup_cons] at h
    obtain ⟨hnotin, hrest⟩ := h
    by_cases hk : a = k
    · have hins : dictInsert ((a, b) :: rest) k v = (k, v) :: rest := by
        simp [dictInsert, hk]
      rw [hins]
      simp only [dictKeys, List.map_cons, List.nodup_cons]
      exact ⟨hk ▸ hnotin, hrest⟩
    · simp only [dictInsert, if_neg hk, dictKeys, List.map_cons, List.nodup_cons]
      refine ⟨?_, ih hrest⟩
      intro hmem
      rcases (mem_dictKeys_dictInsert rest k v a).mp hmem with hm | hm
      · exact hnotin hm
      · exact hk hm

theorem searchOne_mock (b : Bool) (env : Env) (q : String) :
    searchOne ⟨Provider.mock, b⟩ env q = Except.ok (search_mock_smart env q) := by
  simp [searchOne]

theorem searchLoop_mock (b : Bool) (env : Env) (l : List String) :
    ∀ acc, searchLoop ⟨Provider.mock, b⟩ env l acc = Except.ok (mockSearch env l acc) := by
  induction l with
  | nil => intro acc; rfl
  | cons q rest ih =>
    intro acc
    rw [searchLoop, searchOne_mock, mockSearch]
    exact ih _

theorem mockSearch_lookup_not_mem (env : Env) (q : String) (l : List String) :
    ∀ acc, q ∉ l → dictLookup (mockSearch env l acc) q = dictLookup acc q := by
  induction l with
  | nil => intro acc _; rfl
  | cons a rest ih =>
    intro acc h
    have ha : a ≠ q := fun he => h (he ▸ List.mem_cons_self a rest)
    rw [mockSearch, ih _ (fun hm => h (List.mem_cons_of_mem a hm))]
    exact dictLookup_dictInsert_ne acc q a _ ha

theorem mockSearch_lookup_mem (env : Env) (q : String) (l : List String) :
    ∀ acc, q ∈ l → dictLookup (mockSearch env l acc) q = some (search_mock_smart env q) := by
  induction l with
  | nil => intro acc h; cases h
  | cons a rest ih =>
    intro acc h
    by_cases hr : q ∈ rest
    · rw [mockSearch]
      exact ih _ hr
    · have haq : a = q := by
        rcases List.mem_cons.mp h with h1 | h2
        · exact h1.symm
        · exact absurd h2 hr
      subst haq
      rw [mockSearch, mockSearch_lookup_not_mem env a rest _ hr]
      exact dictLookup_dictInsert_self acc a _

theorem mockSearch_keys_nodup (env : Env) (l : List String) :
    ∀ acc, (dictKeys acc).Nodup → (dictKeys (mockSearch env l acc)).Nodup := by
  induction l with
  | nil => intro acc h; exact h
  | cons a rest ih =>
    intro acc h
    rw [mockSearch]
    exact ih _ (dictKeys_nodup_dictInsert acc a _ h)

theorem mockSearch_keys_sub (env : Env) (l : List String) :
    ∀ acc a, a ∈ dictKeys (mockSearch env l acc) → a ∈ l ∨ a ∈ dictKeys acc := by
  induction l with
  | nil => intro acc a h; exact Or.inr h
  | cons x rest ih =>
    intro acc a h
    rw [mockSearch] at h
    rcases ih _ a h with hm | hm
    · exact Or.inl (List.mem_cons_of_mem x hm)
    · rcases (mem_dictKeys_dictInsert acc x _ a).mp hm with hk | hk
      · exact Or.inr hk
      · exact Or.inl (hk ▸ List.mem_cons_self x rest)

/-! ### Claim theorems: orchestrator and adapters -/

/-- Claim C8: for a blank keyword, `run_tool` returns the InputError
response "Keyword is required.", and the returned value is independent
of every remote-call oracle — neither the language-model client nor the
search backend is consulted before the keyword check fails. -/
theorem run_tool_blank_keyword (env env' : Env) (content_text : String) :
    run_tool env content_text "" = ToolOutput.error "Keyword is required." ∧
    run_tool env content_text "" = run_tool env' content_text "" := by
  constructor <;> rfl

/-- Claim C5: a raw `AnswerBlock` candidate whose `intent_category` lies
outside the four `Literal` values fails pydantic model validation (it is
rejected, never coerced), while exactly "How-to" passes with the parsed
category and every other field unchanged. -/
theorem intent_category_literal (raw : RawAnswerBlock) :
    (raw.intent_category ∉
        (["Definition", "Comparison", "Limitations", "How-to"] : List String) →
      parseAnswerBlock raw = none) ∧
    (raw.intent_category = "How-to" →
      parseAnswerBlock raw = some ⟨raw.heading, raw.content, IntentCategory.howTo,
        raw.source_quality_score, raw.relevance_score⟩) := by
  constructor
  · intro h
    have h1 : raw.intent_category ≠ "Definition" := fun he => h (by simp [he])
    have h2 : raw.intent_category ≠ "Comparison" := fun he => h (by simp [he])
    have h3 : raw.intent_category ≠ "Limitations" := fun he => h (by simp [he])
    have h4 : raw.intent_category ≠ "How-to" := fun he => h (by simp [he])
    simp [parseAnswerBlock, parseIntentCategory, h1, h2, h3, h4]
  · intro h
    unfold parseAnswerBlock parseIntentCategory
    rw [h]
    rfl

/-- Witness for C5: "Howto" (missing hyphen) is rejected; "How-to" is
accepted as-is. -/
theorem intent_category_literal_witness :
    parseAnswerBlock ⟨"Heading", "Content", "Howto", 50, 50⟩ = none ∧
    parseAnswerBlock ⟨"Heading", "Content", "How-to", 50, 50⟩ =
      some ⟨"Heading", "Content", IntentCategory.howTo, 50, 50⟩ := by
  constructor
  · exact (intent_category_literal ⟨"Heading", "Content", "Howto", 50, 50⟩).1 (by decide)
  · exact (intent_category_literal ⟨"Heading", "Content", "How-to", 50, 50⟩).2 rfl

/-- Claim C6 counterexample: with non-blank content but a failing direct
generation call, `run_tool` returns a Planning-stage failure — so the
Plan stage ran, refuting the claim that supplying source content makes
the single-shot path skip Plan/Retrieve entirely. -/
theorem run_tool_direct_not_always_single_shot :
    pyStrip "Background text about project tools." ≠ "" ∧
    run_tool envPlanFail "Background text about project tools." "project tools" =
      ToolOutput.error "Planning failed: plan boom" := by
  constructor
  · decide
  · rfl

/-- Claim C6 (amended): `run_tool` dispatches on source content — with
non-blank content the single-shot path runs first, and on success its
result is returned directly (Plan/Retrieve skipped); if the single-shot
generation fails, `run_tool` falls back to the full
plan→retrieve→synthesize workflow; with blank or whitespace-only
content the workflow runs, and on its success path the synthesized
result comes from a retrieval mapping holding one entry per planned
sub-query. -/
theorem run_tool_dispatch (env : Env) (content_text keyword : String)
    (hk : keyword ≠ "") :
    (∀ r, pyStrip content_text ≠ "" → env.genGeo = Except.ok r →
      run_tool env content_text keyword = ToolOutput.result r) ∧
    (∀ e, pyStrip content_text ≠ "" → env.genGeo = Except.error e →
      run_tool env content_text keyword = run_fan_out_workflow env keyword false) ∧
    (pyStrip content_text = "" →
      run_tool env content_text keyword = run_fan_out_workflow env keyword false) ∧
    (∀ p r, pyStrip content_text = "" → env.plan = Except.ok p →
      env.synthesize p (mockSearch env p.sub_queries []) = Except.ok r →
      run_tool env content_text keyword = ToolOutput.result r ∧
      ∀ q ∈ p.sub_queries,
        dictLookup (mockSearch env p.sub_queries []) q = some (search_mock_smart env q)) := by
  refine ⟨?_, ?_, ?_, ?_⟩
  · intro r hct hgen
    simp [run_tool, hk, hct, generate_geo_content, hgen]
  · intro e hct hgen
    simp [run_tool, hk, hct, generate_geo_content, hgen]
  · intro hct
    simp [run_tool, hk, hct]
  · intro p r hct hplan hsyn
    constructor
    · have hwf : run_fan_out_workflow env keyword false = ToolOutput.result r := by
        simp [run_fan_out_workflow, step_1_plan_queries, step_3_synthesize, hplan, hsyn,
          searchToolFor, SearchTool.search_multiple, searchLoop_mock]
      simp [run_tool, hk, hct, hwf]
    · intro q hq
      exact mockSearch_lookup_mem env q p.sub_queries [] hq

/-- Witness for C6 (amended), exercising the successful single-shot
path, the fallback path, and the blank-content path. -/
theorem run_tool_dispatch_witness :
    run_tool envAllOk "Background text" "kw" = ToolOutput.result resultOkVal ∧
    run_tool envPlanFail "Background text" "kw" =
      run_fan_out_workflow envPlanFail "kw" false ∧
    run_tool envAllOk "" "kw" = run_fan_out_workflow envAllOk "kw" false := by
  refine ⟨?_, ?_, ?_⟩
  · exact (run_tool_dispatch envAllOk "Background text" "kw" (by decide)).1
      resultOkVal (by decide) rfl
  · exact (run_tool_dispatch envPlanFail "Background text" "kw" (by decide)).2.1
      "gen boom" (by decide) rfl
  · exact (run_tool_dispatch envAllOk "" "kw" (by decide)).2.2.1 rfl

/-- Claim C10: `run_tool` always returns exactly one of a result or an
error value and never raises; when the direct single-shot generation
fails with non-blank content, it silently falls back to the full
workflow, so every observable error is either the keyword InputError or
an error produced by `run_fan_out_workflow` — never one from the direct
path alone. -/
theorem run_tool_total_fallback (env : Env) (content_text keyword : String) :
    ((∃ r, run_tool env content_text keyword = ToolOutput.result r) ∨
      (∃ e, run_tool env content_text keyword = ToolOutput.error e)) ∧
    (∀ e, keyword ≠ "" → pyStrip content_text ≠ "" → env.genGeo = Except.error e →
      run_tool env content_text keyword = run_fan_out_workflow env keyword false) ∧
    (∀ e, run_tool env content_text keyword = ToolOutput.error e →
      e = "Keyword is required." ∨
        run_fan_out_workflow env keyword false = ToolOutput.error e) := by
  refine ⟨?_, ?_, ?_⟩
  · cases h : run_tool env content_text keyword with
    | result r => exact Or.inl ⟨r, rfl⟩
    | error e => exact Or.inr ⟨e, rfl⟩
  · intro e hk hct hgen
    simp [run_tool, hk, hct, generate_geo_content, hgen]
  · intro e h
    by_cases hk : keyword = ""
    · left
      rw [run_tool, if_pos hk] at h
      exact (ToolOutput.error.inj h).symm
    · right
      rw [run_tool, if_neg hk] at h
      by_cases hct : pyStrip content_text ≠ ""
      · rw [if_pos hct] at h
        cases hgen : env.genGeo with
        | ok r => rw [show generate_geo_content env content_text keyword = some r by
            simp [generate_geo_content, hgen]] at h; cases h
        | error e' => rw [show generate_geo_content env content_text keyword = none by
            simp [generate_geo_content, hgen]] at h; exact h
      · rw [if_neg hct] at h
        exact h

/-- Witness for C10: the fallback equality and the error
characterization at a concrete environment. -/
theorem run_tool_total_fallback_witness :
    run_tool envSynthFail "Background text" "kw" =
      run_fan_out_workflow envSynthFail "kw" false ∧
    ("Planning failed: plan boom" = "Keyword is required." ∨
      run_fan_out_workflow envPlanFail "other kw" false =
        ToolOutput.error "Planning failed: plan boom") := by
  constructor
  · exact (run_tool_total_fallback envSynthFail "Background text" "kw").2.1
      "gen boom" (by decide) (by decide) rfl
  · exact (run_tool_total_fallback envPlanFail "" "other kw").2.2
      "Planning failed: plan boom" rfl

/-- Claim C7: the pipeline runs Plan, Retrieve, Synthesize strictly in
that order; a failure in any stage immediately yields the stage-tagged
error value (the output is fully determined at the failing stage, so
later stages cannot influence it), and every outcome is a plain
result-or-error value — no stage exception escapes the orchestrator. -/
theorem pipeline_stage_order (env : Env) (keyword : String) (use_real_search : Bool) :
    (∀ e, env.plan = Except.error e →
      run_fan_out_workflow env keyword use_real_search =
        ToolOutput.error ("Planning failed: " ++ e)) ∧
    (∀ p e, env.plan = Except.ok p →
      (searchToolFor env use_real_search).search_multiple env p.sub_queries =
        Except.error e →
      run_fan_out_workflow env keyword use_real_search =
        ToolOutput.error ("Search failed: " ++ e)) ∧
    (∀ p m e, env.plan = Except.ok p →
      (searchToolFor env use_real_search).search_multiple env p.sub_queries =
        Except.ok m →
      env.synthesize p m = Except.error e →
      run_fan_out_workflow env keyword use_real_search =
        ToolOutput.error ("Synthesis failed: " ++ e)) ∧
    (∀ p m r, env.plan = Except.ok p →
      (searchToolFor env use_real_search).search_multiple env p.sub_queries =
        Except.ok m →
      env.synthesize p m = Except.ok r →
      run_fan_out_workflow env keyword use_real_search = ToolOutput.result r) ∧
    ((∃ r, run_fan_out_workflow env keyword use_real_search = ToolOutput.result r) ∨
      (∃ e, run_fan_out_workflow env keyword use_real_search = ToolOutput.error e)) := by
  refine ⟨?_, ?_, ?_, ?_, ?_⟩
  · intro e hplan
    simp [run_fan_out_workflow, step_1_plan_queries, hplan]
  · intro p e hplan hsearch
    simp [run_fan_out_workflow, step_1_plan_queries, hplan, hsearch]
  · intro p m e hplan hsearch hsyn
    simp [run_fan_out_workflow, step_1_plan_queries, step_3_synthesize, hplan, hsearch, hsyn]
  · intro p m r hplan hsearch hsyn
    simp [run_fan_out_workflow, step_1_plan_queries, step_3_synthesize, hplan, hsearch, hsyn]
  · cases h : run_fan_out_workflow env keyword use_real_search with
    | result r => exact Or.inl ⟨r, rfl⟩
    | error e => exact Or.inr ⟨e, rfl⟩

/-- Witness for C7: a planning failure, a search-stage failure (a raised
`ImportError` in real-search mode), a synthesis failure, and a full
success, each with its stage tag. -/
theorem pipeline_stage_order_witness :
    run_fan_out_workflow envPlanFail "kw" false =
      ToolOutput.error "Planning failed: plan boom" ∧
    run_fan_out_workflow envSearchFail "kw" true =
      ToolOutput.error "Search failed: No module named requests" ∧
    run_fan_out_workflow envSynthFail "kw" false =
      ToolOutput.error "Synthesis failed: synth boom" ∧
    run_fan_out_workflow envAllOk "kw" false = ToolOutput.result resultOkVal := by
  refine ⟨?_, ?_, ?_, ?_⟩
  · exact (pipeline_stage_order envPlanFail "kw" false).1 "plan boom" rfl
  · exact (pipeline_stage_order envSearchFail "kw" true).2.1 planOkVal
      "No module named requests" rfl rfl
  · exact (pipeline_stage_order envSynthFail "kw" false).2.2.1 planOkVal
      (mockSearch envSynthFail planOkVal.sub_queries []) "synth boom" rfl
      (searchLoop_mock envSynthFail.hasSerperKey envSynthFail planOkVal.sub_queries [])
      rfl
  · exact (pipeline_stage_order envAllOk "kw" false).2.2.2.1 planOkVal
      (mockSearch envAllOk planOkVal.sub_queries []) resultOkVal rfl
      (searchLoop_mock envAllOk.hasSerperKey envAllOk planOkVal.sub_queries []) rfl

/-- Claim C9: mock-mode retrieval (the pipeline's default) never aborts
or raises — it returns a mapping whose keys are exactly one entry per
input query, where a failing per-query fetch degrades to the placeholder
string for that query only while every other query still receives its
fetched snippet; in real-search mode a failing HTTP request likewise
degrades to a per-query placeholder instead of raising. -/
theorem search_partial_failure (env : Env) (queries : List String) (q : String)
    (hq : q ∈ queries) :
    ∃ m, (SearchTool.mk Provider.mock env.hasSerperKey).search_multiple env queries =
        Except.ok m ∧
      (dictKeys m).Nodup ∧
      (∀ a, a ∈ dictKeys m → a ∈ queries) ∧
      dictLookup m q = some (search_mock_smart env q) ∧
      (∀ e, env.fetch q = Except.error e →
        dictLookup m q = some "Error generating mock content.") ∧
      (∀ s, env.fetch q = Except.ok s → dictLookup m q = some s) ∧
      (∀ u req, env.serperImportOutcome = Except.ok u →
        env.serperRequest q = Except.error req →
        search_serper env q = Except.ok "No results found due to error.") := by
  refine ⟨mockSearch env queries [], ?_, ?_, ?_, ?_, ?_, ?_, ?_⟩
  · exact searchLoop_mock env.hasSerperKey env queries []
  · exact mockSearch_keys_nodup env queries [] (by simp [dictKeys])
  · intro a ha
    rcases mockSearch_keys_sub env queries [] a ha with h | h
    · exact h
    · simp [dictKeys] at h
  · exact mockSearch_lookup_mem env q queries [] hq
  · intro e he
    rw [mockSearch_lookup_mem env q queries [] hq, search_mock_smart, he]
  · intro s hs
    rw [mockSearch_lookup_mem env q queries [] hq, search_mock_smart, hs]
  · intro u req himp hreq
    rw [search_serper, himp, hreq]

/-- Witness for C9: two queries where one fetch fails — the batch still
succeeds, the failed query maps to the placeholder, the other to its
snippet. -/
theorem search_partial_failure_witness :
    ∃ m, (SearchTool.mk Provider.mock envMixed.hasSerperKey).search_multiple envMixed
        ["good query", "bad query"] = Except.ok m ∧
      (dictKeys m).Nodup ∧
      (∀ a, a ∈ dictKeys m → a ∈ ["good query", "bad query"]) ∧
      dictLookup m "bad query" = some (search_mock_smart envMixed "bad query") ∧
      (∀ e, envMixed.fetch "bad query" = Except.error e →
        dictLookup m "bad query" = some "Error generating mock content.") ∧
      (∀ s, envMixed.fetch "bad query" = Except.ok s →
        dictLookup m "bad query" = some s) ∧
      (∀ u req, envMixed.serperImportOutcome = Except.ok u →
        envMixed.serperRequest "bad query" = Except.error req →
        search_serper envMixed "bad query" =
          Except.ok "No results found due to error.") :=
  search_partial_failure envMixed ["good query", "bad query"] "bad query" (by decide)

/-! ### Validation Engine lemmas and claim theorems -/

theorem hasDuplicate_eq_false_iff (l : List String) :
    hasDuplicate l = false ↔ l.Nodup := by
  induction l with
  | nil => simp [hasDuplicate]
  | cons x xs ih =>
    rw [hasDuplicate, List.nodup_cons, Bool.or_eq_false_iff, ih]
    constructor
    · rintro ⟨h1, h2⟩
      refine ⟨?_, h2⟩
      intro hm
      have : xs.any (fun y => y = x) = true := by
        simp only [List.any_eq_true, decide_eq_true_eq]
        exact ⟨x, hm, rfl⟩
      rw [this] at h1
      cases h1
    · rintro ⟨h1, h2⟩
      refine ⟨?_, h2⟩
      by_contra hne
      have : xs.any (fun y => y = x) = true := by
        cases hv : xs.any (fun y => y = x)
        · exact absurd hv hne
        · rfl
      simp only [List.any_eq_true, decide_eq_true_eq] at this
      obtain ⟨y, hy, he⟩ := this
      exact h1 (he ▸ hy)

theorem validate_block_error_mem (b : CandidateBlock) (e : String)
    (h : validate_block b = Except.error e) :
    e = wordCountReason ∨ e = pronounReason ∨ e = paragraphReason ∨ e = causalReason ∨
      e = headingReason ∨ e = scoreReason ∨ e = categoryReason := by
  rw [validate_block] at h
  split_ifs at h <;> simp_all

theorem validateBlocks_error_mem (l : List CandidateBlock) (e : String)
    (h : validateBlocks l = Except.error e) :
    ∃ b ∈ l, validate_block b = Except.error e := by
  induction l with
  | nil => simp [validateBlocks] at h
  | cons b rest ih =>
    rw [validateBlocks] at h
    cases hb : validate_block b with
    | error e' =>
      rw [hb] at h
      injection h with he
      exact ⟨b, List.mem_cons_self b rest, he ▸ hb⟩
    | ok u =>
      rw [hb] at h
      obtain ⟨b', hb', he⟩ := ih h
      exact ⟨b', List.mem_cons_of_mem b hb', he⟩

/-- Claim C1: the Validation Engine rejects a candidate block with the
word-count-specific reason exactly when the whitespace-delimited word
count of `content` lies outside [40, 80]; in particular contents of
exactly 40 or exactly 80 words pass the word-count rule (boundaries
inclusive). -/
theorem word_count_rule (b : CandidateBlock) :
    validate_block b = Except.error wordCountReason ↔
      (wordCount b.content < 40 ∨ 80 < wordCount b.content) := by
  by_cases h : wordCount b.content < 40 ∨ 80 < wordCount b.content
  · rw [validate_block, if_pos h]
    simp [h]
  · rw [validate_block, if_neg h]
    constructor
    · intro hc
      exfalso
      split_ifs at hc <;> exact absurd (Except.error.inj hc) (by decide)
    · intro hc
      exact absurd hc h

/-- Claim C4: a candidate block whose content's first
whitespace-delimited token, stripped of surrounding punctuation, is
(case-insensitively) one of the fixed pronouns is always rejected —
with the pronoun-specific reason whenever the word count is in range —
while a block starting with a non-pronoun word is never rejected by the
pronoun-start rule. -/
theorem pronoun_rule (b : CandidateBlock) :
    (firstWordIsPronoun b.content = true → validate_block b ≠ Except.ok ()) ∧
    (40 ≤ wordCount b.content → wordCount b.content ≤ 80 →
      firstWordIsPronoun b.content = true →
      validate_block b = Except.error pronounReason) ∧
    (firstWordIsPronoun b.content = false →
      validate_block b ≠ Except.error pronounReason) := by
  refine ⟨?_, ?_, ?_⟩
  · intro hp hok
    rw [validate_block] at hok
    by_cases h : wordCount b.content < 40 ∨ 80 < wordCount b.content
    · rw [if_pos h] at hok
      exact Except.noConfusion hok
    · rw [if_neg h, if_pos hp] at hok
      exact Except.noConfusion hok
  · intro h40 h80 hp
    rw [validate_block,
      if_neg (show ¬(wordCount b.content < 40 ∨ 80 < wordCount b.content) by omega),
      if_pos hp]
  · intro hp hc
    rw [validate_block] at hc
    split_ifs at hc <;>
      first
        | exact absurd (Except.error.inj hc) (by decide)
        | simp_all

/-- Witness for C4: a 40-word content starting with "It" is rejected
with the pronoun reason; a 40-word content starting with the proper
noun "Jotform" is not rejected by the pronoun-start rule. -/
theorem pronoun_rule_witness :
    validate_block ⟨"Definition", "q", "Overview", contentPronoun40, 50, some 50⟩ =
      Except.error pronounReason ∧
    validate_block (sampleBlock "q") ≠ Except.error pronounReason := by
  constructor
  · exact (pronoun_rule ⟨"Definition", "q", "Overview", contentPronoun40, 50, some 50⟩).2.1
      (by decide) (by decide) (by decide)
  · exact (pronoun_rule (sampleBlock "q")).2.2 (by decide)

/-- Claim C3: result-level validation rejects a candidate with fewer
than 3 or more than 5 blocks with the block-count reason, and a result
with exactly 3 or exactly 5 blocks passes the block-count rule
(boundaries inclusive). -/
theorem block_count_rule (r : CandidateResult) :
    (r.blocks.length < 3 ∨ 5 < r.blocks.length →
      validate_result r = Except.error blockCountReason) ∧
    ((r.blocks.length = 3 ∨ r.blocks.length = 5) →
      validate_result r ≠ Except.error blockCountReason) := by
  constructor
  · intro h
    rw [validate_result, if_pos h]
  · intro h hc
    have hn : ¬(r.blocks.length < 3 ∨ 5 < r.blocks.length) := by omega
    rw [validate_result, if_neg hn] at hc
    by_cases hd : hasDuplicate (loweredQueries r.blocks) = true
    · rw [if_pos hd] at hc
      exact absurd (Except.error.inj hc) (by decide)
    · rw [if_neg hd] at hc
      obtain ⟨b, _, he⟩ := validateBlocks_error_mem _ _ hc
      rcases validate_block_error_mem b _ he with h1 | h1 | h1 | h1 | h1 | h1 | h1 <;>
        exact absurd h1 (by decide)

/-- Witness for C3: 2 blocks and 6 blocks are rejected with the
block-count reason; 3 blocks are not rejected by the block-count rule. -/
theorem block_count_rule_witness :
    validate_result ⟨"summary", [sampleBlock "a", sampleBlock "b"]⟩ =
      Except.error blockCountReason ∧
    validate_result ⟨"summary", [sampleBlock "a", sampleBlock "b", sampleBlock "c",
        sampleBlock "d", sampleBlock "e", sampleBlock "f"]⟩ =
      Except.error blockCountReason ∧
    validate_result ⟨"summary", [sampleBlock "a", sampleBlock "b", sampleBlock "c"]⟩ ≠
      Except.error blockCountReason := by
  refine ⟨?_, ?_, ?_⟩
  · exact (block_count_rule ⟨"summary", [sampleBlock "a", sampleBlock "b"]⟩).1
      (Or.inl (by decide))
  · exact (block_count_rule ⟨"summary", [sampleBlock "a", sampleBlock "b", sampleBlock "c",
      sampleBlock "d", sampleBlock "e", sampleBlock "f"]⟩).1 (Or.inr (by decide))
  · exact (block_count_rule ⟨"summary", [sampleBlock "a", sampleBlock "b", sampleBlock "c"]⟩).2
      (Or.inl (by decide))

/-- Claim C2: a candidate result whose blocks carry two `target_query`
values equal after lower-casing is never accepted — with the
duplicate-specific reason whenever the block count is in range — and a
result is accepted only when the lower-cased `target_query` values of
its block sequence are pairwise distinct. -/
theorem duplicate_query_rule (r : CandidateResult) :
    (¬ (loweredQueries r.blocks).Nodup → validate_result r ≠ Except.ok ()) ∧
    (3 ≤ r.blocks.length → r.blocks.length ≤ 5 → ¬ (loweredQueries r.blocks).Nodup →
      validate_result r = Except.error duplicateQueryReason) ∧
    (validate_result r = Except.ok () → (loweredQueries r.blocks).Nodup) := by
  have hdup : ¬ (loweredQueries r.blocks).Nodup →
      hasDuplicate (loweredQueries r.blocks) = true := by
    intro hnd
    cases hb : hasDuplicate (loweredQueries r.blocks)
    · exact absurd ((hasDuplicate_eq_false_iff _).mp hb) hnd
    · rfl
  refine ⟨?_, ?_, ?_⟩
  · intro hnd hok
    rw [validate_result] at hok
    by_cases h : r.blocks.length < 3 ∨ 5 < r.blocks.length
    · rw [if_pos h] at hok
      exact Except.noConfusion hok
    · rw [if_neg h, if_pos (hdup hnd)] at hok
      exact Except.noConfusion hok
  · intro h3 h5 hnd
    have hn : ¬(r.blocks.length < 3 ∨ 5 < r.blocks.length) := by omega
    rw [validate_result, if_neg hn, if_pos (hdup hnd)]
  · intro hok
    by_contra hnd
    rw [validate_result] at hok
    by_cases h : r.blocks.length < 3 ∨ 5 < r.blocks.length
    · rw [if_pos h] at hok
      exact Except.noConfusion hok
    · rw [if_neg h, if_pos (hdup hnd)] at hok
      exact Except.noConfusion hok

/-- Witness for C2: two queries differing only by case count as
duplicates and the result is rejected with the duplicate reason. -/
theorem duplicate_query_rule_witness :
    validate_result ⟨"summary",
        [sampleBlock "Query A", sampleBlock "query a", sampleBlock "other"]⟩ =
      Except.error duplicateQueryReason :=
  (duplicate_query_rule ⟨"summary",
      [sampleBlock "Query A", sampleBlock "query a", sampleBlock "other"]⟩).2.1
    (by decide) (by decide) (by decide)

end FanoutAI
